import Mathlib

/-!
Shallow embedding of `src/retry.ts` (firestore-retry).

The repository is a retry wrapper for Firestore operations: an error
classifier (`isRetryableFirestoreError`), an exponential-backoff delay
computation (`calculateDelay`), a bounded attempt loop (`retryOperation`),
a batch accumulator (`RetryableBatch`) and four configuration presets
(`RetryConfigs`).

Modelling choices:
* JavaScript field values relevant to the classifier are modelled by the
  inductive `JSVal` (null/undefined, string, number, boolean); an error
  object is an `ErrVal` record of four optional fields, and the error
  itself may be nullish (`Option ErrVal`).
* A JavaScript expression that can throw a `TypeError` (calling
  `toLowerCase` on a non-string) is modelled in `Except Unit`.
* JS numbers used for delays are modelled as rationals; `Math.random()`
  becomes an explicit stream `rand : ℕ → ℚ` of draws.
* The `async` attempt loop of `retryOperation` is modelled as a
  terminating recursion over the attempt counter; its observable outcome
  (`RetryResult`) records the settled value or error, the number of times
  the operation was invoked, and the list of delays slept between
  attempts.
-/

deriving instance DecidableEq for Except

namespace FirestoreRetry

/-- JavaScript primitive values that may sit in an error object's fields.
`vnull` stands for both `null` and `undefined` reached through optional
chaining. -/
inductive JSVal where
  | vnull : JSVal
  | vstr : String → JSVal
  | vnum : Int → JSVal
  | vbool : Bool → JSVal
  deriving DecidableEq, Repr

/-- The fields of an error value that `isRetryableFirestoreError` reads
(`src/retry.ts` lines 27-32); `none` models an absent field. -/
structure ErrVal where
  message : Option JSVal := none
  details : Option JSVal := none
  msg : Option JSVal := none
  code : Option JSVal := none
  deriving DecidableEq, Repr

/-- `startsWithChars t s` : the character list `t` is a prefix of `s`. -/
def startsWithChars : List Char → List Char → Bool
  | [], _ => true
  | _ :: _, [] => false
  | a :: as, b :: bs => a == b && startsWithChars as bs

/-- `hasSubChars t s` : `t` occurs as a contiguous sublist of `s`. -/
def hasSubChars (t : List Char) : List Char → Bool
  | [] => startsWithChars t []
  | b :: bs => startsWithChars t (b :: bs) || hasSubChars t bs

/-- JavaScript `s.includes t`. -/
def strIncludes (s t : String) : Bool :=
  hasSubChars t.toList s.toList

/-- JavaScript's `toLowerCase()` on the character data of a string. The
messages the classifier matches are ASCII, where `Char.toLower` agrees
with JavaScript. (Core's `String.toLower` is the same map, but its
implementation does not reduce in the kernel, so the character-list map
is used directly.) -/
def strToLower (s : String) : String :=
  String.mk (s.data.map Char.toLower)

/-- JavaScript `x?.toLowerCase()` for a possibly-absent field value:
absent or nullish short-circuits to `undefined` (`none`); a string is
lowercased; any other value makes the call throw a `TypeError`
(`toLowerCase` is not a function there), modelled as `Except.error ()`. -/
def optToLower : Option JSVal → Except Unit (Option String)
  | none => .ok none
  | some .vnull => .ok none
  | some (.vstr s) => .ok (some (strToLower s))
  | some (.vnum _) => .error ()
  | some (.vbool _) => .error ()

/-- JavaScript truthiness filter on a string-or-undefined value: the empty
string and `undefined` are falsy, so `a || b` moves on past them. -/
def truthyStr : Option String → Option String
  | none => none
  | some s => if s = "" then none else some s

/-- `error?.message` etc.: field access through an optional error value. -/
def fieldOf (e : Option ErrVal) (f : ErrVal → Option JSVal) : Option JSVal :=
  match e with
  | none => none
  | some v => f v

/-- The `errorMessage` computation of `src/retry.ts` lines 27-31:
`error?.message?.toLowerCase() || error?.details?.toLowerCase() ||
error?.msg?.toLowerCase() || ''`, with JavaScript's short-circuiting `||`
(a later field is only touched when every earlier alternative was falsy),
and a `TypeError` when the first field actually reached is not a string. -/
def extractMessage (e : Option ErrVal) : Except Unit String := do
  let m ← optToLower (fieldOf e ErrVal.message)
  match truthyStr m with
  | some s => pure s
  | none =>
    let d ← optToLower (fieldOf e ErrVal.details)
    match truthyStr d with
    | some s => pure s
    | none =>
      let g ← optToLower (fieldOf e ErrVal.msg)
      match truthyStr g with
      | some s => pure s
      | none => pure ""

/-- `errorCode = error?.code` (`src/retry.ts` line 32). -/
def getCode (e : Option ErrVal) : Option JSVal :=
  fieldOf e ErrVal.code

/-- The rule chain of `isRetryableFirestoreError` (`src/retry.ts` lines
34-70), as a function of the extracted message and code: first `true`
match wins, `errorCode === n` is equality with the number `n`. -/
def retryVerdict (code : Option JSVal) (m : String) : Bool :=
  if code == some (JSVal.vnum 13) && strIncludes m "rst_stream" then true
  else if strIncludes m "quota exceeded" || strIncludes m "write limit" then true
  else if code == some (JSVal.vnum 14) || strIncludes m "unavailable" then true
  else if strIncludes m "timeout" || strIncludes m "deadline exceeded" then true
  else if code == some (JSVal.vnum 13) || strIncludes m "internal server error" then true
  else if code == some (JSVal.vnum 8) || strIncludes m "resource exhausted" then true
  else false

/-- `isRetryableFirestoreError` (`src/retry.ts` lines 26-71): extract the
message (which may throw a `TypeError`), read the code, and run the rule
chain. -/
def isRetryableFirestoreError (e : Option ErrVal) : Except Unit Bool := do
  let m ← extractMessage e
  pure (retryVerdict (getCode e) m)

/-- The rule chain of `isRetryableFirestoreError` with rule 1 (the
`RST_STREAM` special case, `src/retry.ts` lines 35-37) removed; rules 2-6
are verbatim those of `retryVerdict`. -/
def retryVerdictNoRule1 (code : Option JSVal) (m : String) : Bool :=
  if strIncludes m "quota exceeded" || strIncludes m "write limit" then true
  else if code == some (JSVal.vnum 14) || strIncludes m "unavailable" then true
  else if strIncludes m "timeout" || strIncludes m "deadline exceeded" then true
  else if code == some (JSVal.vnum 13) || strIncludes m "internal server error" then true
  else if code == some (JSVal.vnum 8) || strIncludes m "resource exhausted" then true
  else false

/-- The classifier with rule 1 removed, message extraction unchanged. -/
def isRetryableNoRule1 (e : Option ErrVal) : Except Unit Bool := do
  let m ← extractMessage e
  pure (retryVerdictNoRule1 (getCode e) m)

/-- A field value is a string, nullish, or absent — the shapes on which
JavaScript's `field?.toLowerCase()` cannot throw. -/
def strOrNullish : Option JSVal → Bool
  | none => true
  | some .vnull => true
  | some (.vstr _) => true
  | some (.vnum _) => false
  | some (.vbool _) => false

/-- An error value is well-formed when each of the three message-bearing
fields (`message`, `details`, `msg`) is a string, nullish, or absent. -/
def wellFormed (e : Option ErrVal) : Bool :=
  strOrNullish (fieldOf e ErrVal.message) &&
    strOrNullish (fieldOf e ErrVal.details) &&
      strOrNullish (fieldOf e ErrVal.msg)

/-- The string content of a field value, if it is a string. -/
def strField : Option JSVal → Option String
  | some (.vstr s) => some s
  | _ => none

/-- First non-empty candidate string, empty string when none is. -/
def firstNonEmpty : List (Option String) → String
  | [] => ""
  | f :: rest =>
    match f with
    | some s => if s = "" then firstNonEmpty rest else s
    | none => firstNonEmpty rest

/-- The spec's wording of the message extraction: "extract a lowercase
message string from the first non-empty of the fields message, details,
msg (empty string if none is present)". Stated independently of the
source's `||` chain, for comparison with `extractMessage`. -/
def specMessage (e : Option ErrVal) : String :=
  firstNonEmpty
    [(strField (fieldOf e ErrVal.message)).map strToLower,
     (strField (fieldOf e ErrVal.details)).map strToLower,
     (strField (fieldOf e ErrVal.msg)).map strToLower]

/-- The spec's wording of the code extraction: "an integer code field if
present". -/
def specCode (e : Option ErrVal) : Option Int :=
  match fieldOf e ErrVal.code with
  | some (.vnum n) => some n
  | _ => none

/-- The classifier as the spec's algorithm describes it: the six rules in
fixed order over the spec-extracted message and code, first true match
winning, otherwise not retryable. -/
def isRetryableSpec (e : Option ErrVal) : Bool :=
  let m := specMessage e
  let c := specCode e
  if c == some 13 && strIncludes m "rst_stream" then true
  else if strIncludes m "quota exceeded" || strIncludes m "write limit" then true
  else if c == some 14 || strIncludes m "unavailable" then true
  else if strIncludes m "timeout" || strIncludes m "deadline exceeded" then true
  else if c == some 13 || strIncludes m "internal server error" then true
  else if c == some 8 || strIncludes m "resource exhausted" then true
  else false

/-- `RetryConfig` (`src/retry.ts` lines 6-11): four optional fields.
`maxRetries` is used only as a loop bound, so it is modelled as `ℕ`; the
delay fields are modelled as rationals. -/
structure RetryConfig where
  maxRetries : Option ℕ := none
  baseDelay : Option ℚ := none
  maxDelay : Option ℚ := none
  jitterFactor : Option ℚ := none
  deriving DecidableEq, Repr

/-- `Required<RetryConfig>`: a configuration with every field resolved. -/
structure ResolvedRetryConfig where
  maxRetries : ℕ
  baseDelay : ℚ
  maxDelay : ℚ
  jitterFactor : ℚ
  deriving DecidableEq, Repr

/-- `DEFAULT_RETRY_CONFIG` (`src/retry.ts` lines 16-21). -/
def DEFAULT_RETRY_CONFIG : ResolvedRetryConfig :=
  { maxRetries := 5, baseDelay := 1000, maxDelay := 30000, jitterFactor := 1/10 }

/-- The shallow merge `{ ...DEFAULT_RETRY_CONFIG, ...config }`
(`src/retry.ts` line 102): each supplied field overrides the default. -/
def resolveConfig (c : RetryConfig) : ResolvedRetryConfig :=
  { maxRetries := c.maxRetries.getD DEFAULT_RETRY_CONFIG.maxRetries
    baseDelay := c.baseDelay.getD DEFAULT_RETRY_CONFIG.baseDelay
    maxDelay := c.maxDelay.getD DEFAULT_RETRY_CONFIG.maxDelay
    jitterFactor := c.jitterFactor.getD DEFAULT_RETRY_CONFIG.jitterFactor }

/-- View of a resolved configuration as a `RetryConfig` with every field
present, as happens when `RetryableBatch` passes its `Required<RetryConfig>`
back into `retryOperation`. -/
def toRetryConfig (rc : ResolvedRetryConfig) : RetryConfig :=
  { maxRetries := some rc.maxRetries, baseDelay := some rc.baseDelay,
    maxDelay := some rc.maxDelay, jitterFactor := some rc.jitterFactor }

/-- The `exponentialDelay` term of `calculateDelay` (`src/retry.ts`
line 87): `config.baseDelay * Math.pow(2, attempt - 1)`. -/
def exponentialDelay (attempt : ℕ) (config : ResolvedRetryConfig) : ℚ :=
  config.baseDelay * 2 ^ (attempt - 1)

/-- `calculateDelay` (`src/retry.ts` lines 83-92), with the `Math.random()`
draw made an explicit parameter `r`:
`min(exponentialDelay + exponentialDelay * jitterFactor * r, maxDelay)`. -/
def calculateDelay (attempt : ℕ) (config : ResolvedRetryConfig) (r : ℚ) : ℚ :=
  let expDelay := exponentialDelay attempt config
  let jitter := expDelay * config.jitterFactor * r
  let totalDelay := expDelay + jitter
  min totalDelay config.maxDelay

/-- Observable outcome of one `retryOperation` call. `calls` is the number
of times the wrapped operation was invoked; `delays` the list of delays
slept between attempts, in order.
* `resolved`: the operation returned a value.
* `rejected`: a value thrown by the operation was rethrown (line 113).
* `faulted`: `isRetryableFirestoreError` itself threw a `TypeError`, which
  propagates out of the `try`/`catch`.
* `maxRetriesError`: the loop fell through and the synthesized
  `Error('Max retries exceeded for ...')` of line 131 was thrown; this
  constructor is distinct from `rejected` because that error is a fresh
  object, not one produced by the operation. -/
inductive RetryResult (α : Type) where
  | resolved : α → ℕ → List ℚ → RetryResult α
  | rejected : Option ErrVal → ℕ → List ℚ → RetryResult α
  | faulted : ℕ → List ℚ → RetryResult α
  | maxRetriesError : String → ℕ → List ℚ → RetryResult α
  deriving DecidableEq, Repr

/-- Record one slept delay in front of an outcome's delay list. -/
def consDelay {α : Type} (d : ℚ) : RetryResult α → RetryResult α
  | .resolved v c ds => .resolved v c (d :: ds)
  | .rejected e c ds => .rejected e c (d :: ds)
  | .faulted c ds => .faulted c (d :: ds)
  | .maxRetriesError m c ds => .maxRetriesError m c (d :: ds)

/-- One invocation of the wrapped operation either produces a value or
throws a JavaScript error value. `op i` is the outcome of the `i`-th
invocation (invocations are counted from 1). -/
abbrev Operation (α : Type) := ℕ → Except (Option ErrVal) α

/-- The attempt loop of `retryOperation` (`src/retry.ts` lines 104-131),
from the current value of the `attempt` counter. When invoked with
`attempt = 1` (as `retryOperation` does), the attempt counter equals the
number of operation invocations made so far, which is how the `calls`
component of each outcome is recorded.
* While `attempt <= maxRetries` the operation is invoked; a success
  returns immediately.
* On a throw, `attempt === maxRetries || !isRetryableFirestoreError(error)`
  rethrows the original error — note the short circuit: on the last
  attempt the classifier is not consulted; otherwise a classifier
  `TypeError` propagates, a `false` verdict rethrows the original error,
  and a `true` verdict sleeps `calculateDelay(attempt, finalConfig)` (with
  draw `rand attempt`) and continues.
* When the guard fails the loop exits and line 131 throws the synthesized
  error. -/
def retryLoop {α : Type} (op : Operation α) (name : String)
    (cfg : ResolvedRetryConfig) (rand : ℕ → ℚ) (attempt : ℕ) : RetryResult α :=
  if hle : attempt ≤ cfg.maxRetries then
    match op attempt with
    | .ok v => .resolved v attempt []
    | .error e =>
      if attempt = cfg.maxRetries then
        .rejected e attempt []
      else
        match isRetryableFirestoreError e with
        | .error _ => .faulted attempt []
        | .ok false => .rejected e attempt []
        | .ok true =>
          consDelay (calculateDelay attempt cfg (rand attempt))
            (retryLoop op name cfg rand (attempt + 1))
  else
    .maxRetriesError ("Max retries exceeded for " ++ name) (attempt - 1) []
termination_by cfg.maxRetries + 1 - attempt
decreasing_by
  omega

/-- `retryOperation` (`src/retry.ts` lines 97-132): resolve the
configuration and run the attempt loop from attempt 1. -/
def retryOperation {α : Type} (op : Operation α) (name : String)
    (config : RetryConfig) (rand : ℕ → ℚ) : RetryResult α :=
  retryLoop op name (resolveConfig config) rand 1

/-- `retryFirestoreBatchCommit` (`src/retry.ts` lines 137-146): the
underlying batch's `commit` is the operation, with the fixed diagnostic
name. -/
def retryFirestoreBatchCommit (commitOp : Operation Unit)
    (config : RetryConfig) (rand : ℕ → ℚ) : RetryResult Unit :=
  retryOperation commitOp "Firestore batch commit" config rand

/-- `retryFirestoreOperation` (`src/retry.ts` lines 151-157): an alias of
`retryOperation`. -/
def retryFirestoreOperation {α : Type} (op : Operation α) (name : String)
    (config : RetryConfig) (rand : ℕ → ℚ) : RetryResult α :=
  retryOperation op name config rand

/-- The state of a `RetryableBatch` (`src/retry.ts` lines 162-225): the
resolved configuration fixed at construction and the running operation
count. The underlying Firestore `WriteBatch` is external; only its
accumulated-operation count is observable to the retry logic. -/
structure BatchState where
  operationCount : ℕ
  config : ResolvedRetryConfig
  deriving DecidableEq, Repr

/-- The `RetryableBatch` constructor (`src/retry.ts` lines 167-170). -/
def newRetryableBatch (config : RetryConfig) : BatchState :=
  { operationCount := 0, config := resolveConfig config }

/-- `createRetryableBatch` (`src/retry.ts` lines 230-234). -/
def createRetryableBatch (config : RetryConfig) : BatchState :=
  newRetryableBatch config

/-- `RetryableBatch.set` (`src/retry.ts` lines 175-187): records the write
on the underlying batch and increments the counter. -/
def BatchState.set (b : BatchState) : BatchState :=
  { b with operationCount := b.operationCount + 1 }

/-- `RetryableBatch.update` (`src/retry.ts` lines 192-196). -/
def BatchState.update (b : BatchState) : BatchState :=
  { b with operationCount := b.operationCount + 1 }

/-- `RetryableBatch.delete` (`src/retry.ts` lines 201-205). -/
def BatchState.delete (b : BatchState) : BatchState :=
  { b with operationCount := b.operationCount + 1 }

/-- `RetryableBatch.getOperationCount` (`src/retry.ts` lines 222-224). -/
def BatchState.getOperationCount (b : BatchState) : ℕ :=
  b.operationCount

/-- Outcome of `RetryableBatch.commit`. `skippedEmpty` is the early return
of line 213: a diagnostic warning, no invocation of the underlying batch's
commit. `committed r` is the result of delegating to the retry
machinery. -/
inductive CommitResult where
  | skippedEmpty : CommitResult
  | committed : RetryResult Unit → CommitResult
  deriving DecidableEq, Repr

/-- `RetryableBatch.commit` (`src/retry.ts` lines 210-217): an empty batch
short-circuits; otherwise the commit is delegated to
`retryFirestoreBatchCommit` with the accumulator's own configuration. -/
def BatchState.commit (b : BatchState) (commitOp : Operation Unit)
    (rand : ℕ → ℚ) : CommitResult :=
  if b.operationCount = 0 then
    .skippedEmpty
  else
    .committed (retryFirestoreBatchCommit commitOp (toRetryConfig b.config) rand)

/-- The `RetryConfigs` presets (`src/retry.ts` lines 239-275). Each object
literal in the source supplies `maxRetries`, `baseDelay` and `maxDelay`;
no preset mentions `jitterFactor`, so that field is absent (`none`). -/
def RetryConfigs.FAST : RetryConfig :=
  { maxRetries := some 3, baseDelay := some 500, maxDelay := some 5000 }

/-- `RetryConfigs.STANDARD` (`src/retry.ts` lines 252-256). -/
def RetryConfigs.STANDARD : RetryConfig :=
  { maxRetries := some 5, baseDelay := some 1000, maxDelay := some 30000 }

/-- `RetryConfigs.AGGRESSIVE` (`src/retry.ts` lines 261-265). -/
def RetryConfigs.AGGRESSIVE : RetryConfig :=
  { maxRetries := some 10, baseDelay := some 1000, maxDelay := some 60000 }

/-- `RetryConfigs.PATIENT` (`src/retry.ts` lines 270-274). -/
def RetryConfigs.PATIENT : RetryConfig :=
  { maxRetries := some 7, baseDelay := some 2000, maxDelay := some 120000 }

/-- Sample permanent error `{code: 7, message: "permission denied"}` (the
spec's own example of a non-retryable error). -/
def permissionDeniedErr : ErrVal :=
  { code := some (JSVal.vnum 7), message := some (JSVal.vstr "permission denied") }

/-- Sample transient error `{code: 14}` (gRPC UNAVAILABLE). -/
def unavailableErr : ErrVal :=
  { code := some (JSVal.vnum 14) }

/-- Sample ill-shaped error whose `message` field is the number `5`. -/
def numericMessageErr : ErrVal :=
  { message := some (JSVal.vnum 5) }

/-- Sample transient error `{message: "Deadline Exceeded"}`. -/
def deadlineErr : ErrVal :=
  { message := some (JSVal.vstr "Deadline Exceeded") }

/-! ## Helper lemmas -/

/-- A boolean `if c then true else x` is the disjunction `c || x`. -/
theorem ifChainBool (b x : Bool) : (if b then true else x) = (b || x) := by
  cases b <;> simp

/-- Rules 2-6 alone decide exactly what the full chain decides: rule 1's
condition forces `code === 13`, which rule 5 already accepts. -/
theorem verdict_no_rule1 (c : Option JSVal) (m : String) :
    retryVerdictNoRule1 c m = retryVerdict c m := by
  unfold retryVerdict retryVerdictNoRule1
  cases h13 : (c == some (JSVal.vnum 13)) <;>
    cases hrst : strIncludes m "rst_stream" <;>
      simp

/-- On a throw-free field shape, `field?.toLowerCase()` returns the
lowercased string content, if any. -/
theorem optToLower_eq (o : Option JSVal) (h : strOrNullish o = true) :
    optToLower o = .ok ((strField o).map strToLower) := by
  cases o with
  | none => rfl
  | some v => cases v <;> simp_all [optToLower, strField, strOrNullish]

/-- Every field value of a well-formed error is a string, nullish, or
absent. -/
theorem strOrNullish_cases (o : Option JSVal) (h : strOrNullish o = true) :
    o = none ∨ o = some .vnull ∨ ∃ s, o = some (.vstr s) := by
  cases o with
  | none => exact Or.inl rfl
  | some v => cases v <;> simp_all [strOrNullish]

/-- On well-formed errors the source's `||` extraction chain computes the
spec's "first non-empty field, lowercased" message without throwing. -/
theorem extractMessage_wellFormed (e : Option ErrVal) (h : wellFormed e = true) :
    extractMessage e = .ok (specMessage e) := by
  cases e with
  | none => rfl
  | some v =>
    obtain ⟨m, d, g, c⟩ := v
    simp only [wellFormed, fieldOf, Bool.and_eq_true] at h
    obtain ⟨⟨hm, hd⟩, hg⟩ := h
    rcases strOrNullish_cases _ hm with rfl | rfl | ⟨s1, rfl⟩ <;>
      rcases strOrNullish_cases _ hd with rfl | rfl | ⟨s2, rfl⟩ <;>
        rcases strOrNullish_cases _ hg with rfl | rfl | ⟨s3, rfl⟩ <;>
          simp only [extractMessage, specMessage, fieldOf, optToLower, truthyStr,
            strField, firstNonEmpty, Option.map] <;>
            (try rfl) <;>
              (split_ifs <;> simp_all [Bind.bind, Except.bind, Pure.pure, Except.pure])

/-- The source's `errorCode === k` test agrees with comparing the
spec-extracted integer code with `k`. -/
theorem code_eq_num (e : Option ErrVal) (k : Int) :
    (getCode e == some (JSVal.vnum k)) = (specCode e == some k) := by
  unfold getCode specCode
  cases fieldOf e ErrVal.code with
  | none => rfl
  | some v =>
    cases v with
    | vnum n => by_cases h : n = k <;> simp [beq_iff_eq, h]
    | vnull => rfl
    | vstr s => rfl
    | vbool b => rfl

/-- Resolving an already fully-resolved configuration changes nothing. -/
theorem resolve_toRetryConfig (rc : ResolvedRetryConfig) :
    resolveConfig (toRetryConfig rc) = rc := rfl

/-- On well-formed error values the source classifier computes exactly the
verdict of the spec's algorithm. -/
theorem classifier_eq_spec_aux (e : Option ErrVal) (h : wellFormed e = true) :
    isRetryableFirestoreError e = .ok (isRetryableSpec e) := by
  unfold isRetryableFirestoreError isRetryableSpec
  rw [extractMessage_wellFormed e h]
  show Except.ok (retryVerdict (getCode e) (specMessage e)) = _
  unfold retryVerdict
  rw [code_eq_num e 13, code_eq_num e 14, code_eq_num e 8]

/-- If from attempt `a` on every invocation throws a retryable error, the
loop runs to the final attempt and rethrows the error of that attempt. -/
theorem retryLoop_all_retryable {α : Type} (op : Operation α) (name : String)
    (cfg : ResolvedRetryConfig) (rand : ℕ → ℚ) (e : ℕ → Option ErrVal) :
    ∀ d a, 1 ≤ a → a + d = cfg.maxRetries →
      (∀ i, a ≤ i → i ≤ cfg.maxRetries → op i = .error (e i)) →
      (∀ i, a ≤ i → i < cfg.maxRetries → isRetryableFirestoreError (e i) = .ok true) →
      ∃ ds, retryLoop op name cfg rand a =
        .rejected (e cfg.maxRetries) cfg.maxRetries ds := by
  intro d
  induction d with
  | zero =>
    intro a ha1 hak hop _
    have heq : a = cfg.maxRetries := by omega
    subst heq
    refine ⟨[], ?_⟩
    rw [retryLoop]
    simp [hop cfg.maxRetries le_rfl le_rfl]
  | succ d ih =>
    intro a ha1 hak hop hr
    have hlt : a < cfg.maxRetries := by omega
    obtain ⟨ds, hds⟩ := ih (a + 1) (by omega) (by omega)
      (fun i hi hik => hop i (by omega) hik)
      (fun i hi hik => hr i (by omega) hik)
    refine ⟨calculateDelay a cfg (rand a) :: ds, ?_⟩
    have hle : a ≤ cfg.maxRetries := by omega
    have hne : a ≠ cfg.maxRetries := by omega
    rw [retryLoop]
    simp [hle, hop a le_rfl hle, hne, hr a le_rfl hlt, hds, consDelay]

/-! ## Claim theorems -/

/-- C3: when the resolved `maxRetries` is `k ≥ 1` and the operation throws
a retryable-classified error on every attempt, `retryOperation` invokes
the operation exactly `k` times and rejects with the very error thrown on
the `k`-th attempt (the `rejected` constructor carries the operation's own
error, not the synthesized "Max retries exceeded" one). -/
theorem retry_exhaustion_returns_last_error {α : Type} (op : Operation α)
    (name : String) (config : RetryConfig) (rand : ℕ → ℚ) (e : ℕ → Option ErrVal)
    (h1 : 1 ≤ (resolveConfig config).maxRetries)
    (hop : ∀ i, 1 ≤ i → i ≤ (resolveConfig config).maxRetries → op i = .error (e i))
    (hr : ∀ i, 1 ≤ i → i ≤ (resolveConfig config).maxRetries →
      isRetryableFirestoreError (e i) = .ok true) :
    ∃ ds, retryOperation op name config rand =
      .rejected (e (resolveConfig config).maxRetries)
        (resolveConfig config).maxRetries ds := by
  unfold retryOperation
  exact retryLoop_all_retryable op name (resolveConfig config) rand e
    ((resolveConfig config).maxRetries - 1) 1 le_rfl (by omega)
    (fun i hi hik => hop i hi hik)
    (fun i hi hik => hr i hi (by omega))

/-- C3 witness: `maxRetries = 2` with a persistent `{code: 14}` error:
two invocations, then rejection with that same error. -/
theorem retry_exhaustion_returns_last_error_witness :
    ∃ ds, retryOperation
        (fun _ => .error (some unavailableErr) : Operation ℕ)
        "op" { maxRetries := some 2 } (fun _ => 0) =
      .rejected (some unavailableErr) 2 ds :=
  retry_exhaustion_returns_last_error
    (fun _ => .error (some unavailableErr)) "op"
    { maxRetries := some 2 } (fun _ => 0)
    (fun _ => some unavailableErr)
    (by decide) (fun _ _ _ => rfl) (fun _ _ _ => rfl)

/-- C4: when the first invocation throws an error the classifier rejects
(verdict `false`), `retryOperation` invokes the operation exactly once,
rejects with that original error, and sleeps no delay (empty delay
list). -/
theorem retry_nonretryable_single_attempt {α : Type} (op : Operation α)
    (name : String) (config : RetryConfig) (rand : ℕ → ℚ) (e : Option ErrVal)
    (h1 : 1 ≤ (resolveConfig config).maxRetries)
    (hop : op 1 = .error e)
    (hnr : isRetryableFirestoreError e = .ok false) :
    retryOperation op name config rand = .rejected e 1 [] := by
  unfold retryOperation
  rw [retryLoop]
  by_cases h : 1 = (resolveConfig config).maxRetries
  · rw [← h]
    simp [hop]
  · simp [h1, hop, h, hnr]

/-- C4 witness: a `{code: 7, message: "permission denied"}` error under the
default configuration is attempted once and propagated with no delay. -/
theorem retry_nonretryable_single_attempt_witness :
    retryOperation
        (fun _ => .error (some permissionDeniedErr) : Operation ℕ)
        "op" {} (fun _ => 0) =
      .rejected (some permissionDeniedErr) 1 [] :=
  retry_nonretryable_single_attempt
    (fun _ => .error (some permissionDeniedErr)) "op" {} (fun _ => 0)
    (some permissionDeniedErr)
    (by decide) rfl (by decide)

/-- C10: when the resolved `maxRetries` is 0 the attempt loop never runs:
the operation is invoked zero times and `retryOperation` rejects with the
freshly synthesized `Error` of line 131, whose message is
`Max retries exceeded for <operationName>` — regardless of the
operation. -/
theorem retry_zero_maxRetries {α : Type} (op : Operation α) (name : String)
    (config : RetryConfig) (rand : ℕ → ℚ)
    (h : (resolveConfig config).maxRetries = 0) :
    retryOperation op name config rand =
      .maxRetriesError ("Max retries exceeded for " ++ name) 0 [] := by
  unfold retryOperation
  rw [retryLoop]
  simp [h]

/-- C10 witness: `maxRetries: 0` with an operation that would succeed:
zero invocations, synthesized error naming the operation. -/
theorem retry_zero_maxRetries_witness :
    retryOperation (fun _ => .ok 42 : Operation ℕ) "myop"
        { maxRetries := some 0 } (fun _ => 0) =
      .maxRetriesError "Max retries exceeded for myop" 0 [] :=
  retry_zero_maxRetries (fun _ => .ok 42) "myop" { maxRetries := some 0 }
    (fun _ => 0) (by decide)

/-- C1: for every well-formed error value (each of `message`, `details`,
`msg` a string, nullish, or absent — the shapes on which the spec's
"lowercase message string" extraction is meaningful), the source
classifier returns exactly the verdict of the spec's algorithm: first
non-empty of message/details/msg lowercased, integer code if present, and
the six rules applied in order with the first true match winning. -/
theorem classifier_matches_spec (e : Option ErrVal) (h : wellFormed e = true) :
    isRetryableFirestoreError e = .ok (isRetryableSpec e) :=
  classifier_eq_spec_aux e h

/-- C1 witness: `{message: "Deadline Exceeded"}` is well-formed and the
classifier computes the spec verdict on it. -/
theorem classifier_matches_spec_witness :
    wellFormed (some deadlineErr) = true ∧
      isRetryableFirestoreError (some deadlineErr) =
        .ok (isRetryableSpec (some deadlineErr)) :=
  ⟨by decide, classifier_matches_spec (some deadlineErr) (by decide)⟩

/-- C6: the classifier with rule 1 removed is extensionally equal to the
full classifier (including on throwing inputs, where both fail the same
way): rule 1 forces `code === 13`, which rule 5 accepts by itself, so rule
1 never independently determines the verdict. -/
theorem rule1_subsumed_by_rule5 (e : Option ErrVal) :
    isRetryableNoRule1 e = isRetryableFirestoreError e := by
  unfold isRetryableNoRule1 isRetryableFirestoreError
  cases hm : extractMessage e with
  | error u => rfl
  | ok m => exact congrArg Except.ok (verdict_no_rule1 (getCode e) m)

/-- C8 counterexample: on the error `{message: 5}` the classifier does not
return a boolean — `error?.message?.toLowerCase()` throws a `TypeError`
because the field is a non-nullish non-string, so "never throws, for
values whose message field is not a string" is false of the code. -/
theorem classifier_throws_on_numeric_message :
    isRetryableFirestoreError (some numericMessageErr) = .error () := by decide

/-- C8 amended: the classifier is a pure function of the error value and,
on every error value whose `message`/`details`/`msg` fields are each a
string, nullish, or absent, it returns a boolean and never throws. -/
theorem classifier_total_on_wellFormed (e : Option ErrVal)
    (h : wellFormed e = true) :
    ∃ b, isRetryableFirestoreError e = .ok b :=
  ⟨isRetryableSpec e, classifier_eq_spec_aux e h⟩

/-- C8 amended witness: a well-formed error on which the classifier
returns a boolean. -/
theorem classifier_total_on_wellFormed_witness :
    wellFormed (some permissionDeniedErr) = true ∧
      ∃ b, isRetryableFirestoreError (some permissionDeniedErr) = .ok b :=
  ⟨by decide, classifier_total_on_wellFormed (some permissionDeniedErr) (by decide)⟩

/-- C7 counterexample: the FAST preset does not specify all four tunable
fields — its `jitterFactor` is absent. -/
theorem retryConfigs_fast_lacks_jitterFactor :
    ¬ (RetryConfigs.FAST.maxRetries.isSome = true ∧
        RetryConfigs.FAST.baseDelay.isSome = true ∧
        RetryConfigs.FAST.maxDelay.isSome = true ∧
        RetryConfigs.FAST.jitterFactor.isSome = true) := by decide

/-- C7 amended: each of the four presets specifies exactly the three
fields `maxRetries`, `baseDelay`, `maxDelay`, and leaves `jitterFactor`
absent (it is filled from the default at resolution time). -/
theorem retryConfigs_presets_fields :
    (RetryConfigs.FAST.maxRetries = some 3 ∧
      RetryConfigs.FAST.baseDelay = some 500 ∧
      RetryConfigs.FAST.maxDelay = some 5000 ∧
      RetryConfigs.FAST.jitterFactor = none) ∧
    (RetryConfigs.STANDARD.maxRetries = some 5 ∧
      RetryConfigs.STANDARD.baseDelay = some 1000 ∧
      RetryConfigs.STANDARD.maxDelay = some 30000 ∧
      RetryConfigs.STANDARD.jitterFactor = none) ∧
    (RetryConfigs.AGGRESSIVE.maxRetries = some 10 ∧
      RetryConfigs.AGGRESSIVE.baseDelay = some 1000 ∧
      RetryConfigs.AGGRESSIVE.maxDelay = some 60000 ∧
      RetryConfigs.AGGRESSIVE.jitterFactor = none) ∧
    (RetryConfigs.PATIENT.maxRetries = some 7 ∧
      RetryConfigs.PATIENT.baseDelay = some 2000 ∧
      RetryConfigs.PATIENT.maxDelay = some 120000 ∧
      RetryConfigs.PATIENT.jitterFactor = none) :=
  ⟨⟨rfl, rfl, rfl, rfl⟩, ⟨rfl, rfl, rfl, rfl⟩,
    ⟨rfl, rfl, rfl, rfl⟩, ⟨rfl, rfl, rfl, rfl⟩⟩

/-- C2: for every resolved config with nonnegative `baseDelay` and
`jitterFactor` and a draw `r ∈ [0,1)`, the computed delay is exactly
`min(baseDelay·2^(n-1) + baseDelay·2^(n-1)·jitterFactor·r, maxDelay)`;
for attempt 1 the pre-cap delay `baseDelay + baseDelay·jitterFactor·r`
lies in `[baseDelay, baseDelay·(1+jitterFactor)]`, and the capped attempt-1
delay lies between those two bounds each capped at `maxDelay`. -/
theorem calculateDelay_formula_and_bounds (cfg : ResolvedRetryConfig) (n : ℕ)
    (r : ℚ) (hb : 0 ≤ cfg.baseDelay) (hj : 0 ≤ cfg.jitterFactor)
    (hr0 : 0 ≤ r) (hr1 : r < 1) :
    calculateDelay n cfg r =
      min (cfg.baseDelay * 2 ^ (n - 1) +
        cfg.baseDelay * 2 ^ (n - 1) * cfg.jitterFactor * r) cfg.maxDelay ∧
    cfg.baseDelay ≤ cfg.baseDelay + cfg.baseDelay * cfg.jitterFactor * r ∧
    cfg.baseDelay + cfg.baseDelay * cfg.jitterFactor * r ≤
      cfg.baseDelay * (1 + cfg.jitterFactor) ∧
    calculateDelay 1 cfg r =
      min (cfg.baseDelay + cfg.baseDelay * cfg.jitterFactor * r) cfg.maxDelay ∧
    min cfg.baseDelay cfg.maxDelay ≤ calculateDelay 1 cfg r ∧
    calculateDelay 1 cfg r ≤
      min (cfg.baseDelay * (1 + cfg.jitterFactor)) cfg.maxDelay := by
  obtain ⟨k, b, M, j⟩ := cfg
  dsimp only at *
  have hjr0 : 0 ≤ b * j * r := by positivity
  have hjr1 : b * j * r ≤ b * j := by
    nlinarith [mul_nonneg (mul_nonneg hb hj) (sub_nonneg.mpr hr1.le)]
  have h2 : (2:ℚ) ^ (1 - 1 : ℕ) = 1 := by norm_num
  have hd1 : calculateDelay 1 ⟨k, b, M, j⟩ r = min (b + b * j * r) M := by
    simp only [calculateDelay, exponentialDelay, h2, mul_one]
  refine ⟨rfl, by linarith, by nlinarith, hd1, ?_, ?_⟩
  · rw [hd1]
    exact min_le_min (by linarith) le_rfl
  · rw [hd1]
    exact min_le_min (by nlinarith) le_rfl

/-- C2 witness: attempt 3 under the default configuration with draw 1/2
satisfies the closed-form delay equation. -/
theorem calculateDelay_formula_and_bounds_witness :
    calculateDelay 3 DEFAULT_RETRY_CONFIG (1/2) =
      min (DEFAULT_RETRY_CONFIG.baseDelay * 2 ^ (3 - 1) +
        DEFAULT_RETRY_CONFIG.baseDelay * 2 ^ (3 - 1) *
          DEFAULT_RETRY_CONFIG.jitterFactor * (1/2))
        DEFAULT_RETRY_CONFIG.maxDelay :=
  (calculateDelay_formula_and_bounds DEFAULT_RETRY_CONFIG 3 (1/2)
    (by norm_num [DEFAULT_RETRY_CONFIG]) (by norm_num [DEFAULT_RETRY_CONFIG])
    (by norm_num) (by norm_num)).1

/-- C5: the delay without jitter and cap is `baseDelay·2^(n-1)`; with
`jitterFactor ∈ [0,1)` and draws in `[0,1)` the capped delay is
non-decreasing from each attempt to the next regardless of the draws, and
once it reaches `maxDelay` it stays `maxDelay`. -/
theorem delay_monotone_until_cap (cfg : ResolvedRetryConfig) (n : ℕ)
    (r r' : ℚ) (hn : 1 ≤ n) (hb : 0 ≤ cfg.baseDelay)
    (hj0 : 0 ≤ cfg.jitterFactor) (hj1 : cfg.jitterFactor < 1)
    (hr0 : 0 ≤ r) (hr1 : r < 1) (hr'0 : 0 ≤ r') :
    exponentialDelay n cfg = cfg.baseDelay * 2 ^ (n - 1) ∧
    calculateDelay n cfg r ≤ calculateDelay (n + 1) cfg r' ∧
    (calculateDelay n cfg r = cfg.maxDelay →
      calculateDelay (n + 1) cfg r' = cfg.maxDelay) := by
  obtain ⟨k, b, M, j⟩ := cfg
  dsimp only at *
  have hE : (0:ℚ) ≤ b * 2 ^ (n - 1) := by positivity
  have hjr : j * r ≤ 1 := by
    nlinarith [mul_nonneg hj0 (sub_nonneg.mpr hr1.le)]
  have hpow : (2:ℚ) ^ (n + 1 - 1) = 2 ^ (n - 1) * 2 := by
    have hnn : n + 1 - 1 = (n - 1) + 1 := by omega
    rw [hnn, pow_succ]
  have hkey : b * 2 ^ (n - 1) + b * 2 ^ (n - 1) * j * r ≤
      b * 2 ^ (n + 1 - 1) + b * 2 ^ (n + 1 - 1) * j * r' := by
    rw [hpow]
    nlinarith [mul_le_of_le_one_right hE hjr,
      mul_nonneg (mul_nonneg hE hj0) hr'0]
  refine ⟨rfl, ?_, ?_⟩
  · exact min_le_min hkey le_rfl
  · intro hcap
    have hM : M ≤ b * 2 ^ (n - 1) + b * 2 ^ (n - 1) * j * r :=
      min_eq_right_iff.mp hcap
    exact min_eq_right (le_trans hM hkey)

/-- C5 witness: under the default configuration the attempt-1 delay with
draw 0 is at most the attempt-2 delay with draw 1/2. -/
theorem delay_monotone_until_cap_witness :
    calculateDelay 1 DEFAULT_RETRY_CONFIG 0 ≤
      calculateDelay 2 DEFAULT_RETRY_CONFIG (1/2) :=
  (delay_monotone_until_cap DEFAULT_RETRY_CONFIG 1 0 (1/2) le_rfl
    (by norm_num [DEFAULT_RETRY_CONFIG]) (by norm_num [DEFAULT_RETRY_CONFIG])
    (by norm_num [DEFAULT_RETRY_CONFIG]) (by norm_num) (by norm_num)
    (by norm_num)).2.1

/-- C9: committing a batch with zero accumulated operations yields the
warning short-circuit, touching no underlying commit; with one or more
operations the commit is delegated through the retry loop under the
batch's own resolved configuration and the fixed diagnostic name. -/
theorem batch_commit_empty_or_delegates (b : BatchState)
    (commitOp : Operation Unit) (rand : ℕ → ℚ) :
    (b.operationCount = 0 → b.commit commitOp rand = .skippedEmpty) ∧
    (1 ≤ b.operationCount →
      b.commit commitOp rand =
        .committed (retryLoop commitOp "Firestore batch commit"
          b.config rand 1)) := by
  constructor
  · intro h
    simp [BatchState.commit, h]
  · intro h
    have h0 : ¬ b.operationCount = 0 := by omega
    simp [BatchState.commit, h0, retryFirestoreBatchCommit, retryOperation,
      resolve_toRetryConfig]

/-- C9 witness: a fresh batch commits to the empty short-circuit; after
one `set` it delegates to the retry loop. -/
theorem batch_commit_empty_or_delegates_witness :
    (newRetryableBatch {}).commit (fun _ => .ok ()) (fun _ => 0) =
        .skippedEmpty ∧
      (newRetryableBatch {}).set.commit (fun _ => .ok ()) (fun _ => 0) =
        .committed (retryLoop (fun _ => .ok ()) "Firestore batch commit"
          (newRetryableBatch {}).set.config (fun _ => 0) 1) :=
  ⟨(batch_commit_empty_or_delegates (newRetryableBatch {})
      (fun _ => .ok ()) (fun _ => 0)).1 rfl,
    (batch_commit_empty_or_delegates (newRetryableBatch {}).set
      (fun _ => .ok ()) (fun _ => 0)).2 (by decide)⟩

end FirestoreRetry
